import Mathlib

/-
Verification of the Ephemeral Task Lifecycle Engine
(momentary-calculator, src/examples/momentary-calculator/calculator.ts).

Modelling conventions:
- JavaScript numbers are modelled as exact rationals (ℚ); `Math.round` is
  round-half-toward-positive-infinity, `Math.pow(10, p)` is `10 ^ p`.
- Thrown JavaScript errors are modelled as `JsError` values carried in
  `Except`; an `async` function whose body throws is a rejected promise,
  i.e. an `Except.error` result.
- Wall-clock time is an abstract ℕ of milliseconds; `new Date()` is a `now`
  parameter threaded into each call.
- Mutation of the instance is explicit state passing on the structure
  `MomentaryCalculatorImpl`.
-/

instance {ε α : Type} [DecidableEq ε] [DecidableEq α] : DecidableEq (Except ε α) := fun
  | Except.error e, Except.error f =>
    if h : e = f then Decidable.isTrue (by rw [h]) else Decidable.isFalse (by simp [h])
  | Except.error _, Except.ok _ => Decidable.isFalse (by simp)
  | Except.ok _, Except.error _ => Decidable.isFalse (by simp)
  | Except.ok a, Except.ok b =>
    if h : a = b then Decidable.isTrue (by rw [h]) else Decidable.isFalse (by simp [h])

namespace OnlyThisMoment

/-- Model of a thrown JavaScript error: its constructor name
(`Error`, `TypeError`, ...) and its `message`. -/
structure JsError where
  name : String
  message : String
deriving DecidableEq, Repr

/-- CalculatorIntent from types.ts: `operation` (string; possibly
unrecognized) and `operands` (ordered sequence of numbers). -/
structure CalculatorIntent where
  operation : String
  operands : List ℚ
deriving DecidableEq, Repr

/-- CalculatorPreferences from types.ts: optional `precision` and optional
`roundingMode` (the latter is never consulted by calculator.ts). -/
structure CalculatorPreferences where
  precision : Option ℕ := none
  roundingMode : Option String := none
deriving DecidableEq, Repr

/-- CalculationResult from types.ts: optional `value`, optional `error`,
plus `operation` and `completedAt`. -/
structure CalculationResult where
  value : Option ℚ
  error : Option String
  operation : String
  completedAt : ℕ
deriving DecidableEq, Repr

/-- Error thrown by `new Error('Division by zero')` in performDivision. -/
def divisionByZeroError : JsError :=
  { name := "Error", message := "Division by zero" }

/-- TypeError thrown by `[].reduce(...)` with no seed on an empty array. -/
def reduceEmptyError : JsError :=
  { name := "TypeError", message := "Reduce of empty array with no initial value" }

/-- Type of the registered operations: operands and preferences to either a
number or a thrown domain error. -/
def CalculationFunction : Type :=
  List ℚ → CalculatorPreferences → Except JsError ℚ

/-- performAddition: `operands.reduce((sum, value) => sum + value, 0)`. -/
def performAddition : CalculationFunction := fun operands _preferences =>
  Except.ok (operands.foldl (· + ·) 0)

/-- performSubtraction: seedless `reduce`; the accumulator starts at the
first operand and the callback index starts at 1, so the `index === 0`
branch is dead and each later operand is subtracted. A seedless reduce on
an empty array throws a TypeError. -/
def performSubtraction : CalculationFunction := fun operands _preferences =>
  match operands with
  | [] => Except.error reduceEmptyError
  | a :: rest => Except.ok (rest.foldl (· - ·) a)

/-- performMultiplication: `operands.reduce((product, value) => product * value, 1)`. -/
def performMultiplication : CalculationFunction := fun operands _preferences =>
  Except.ok (operands.foldl (· * ·) 1)

/-- Math.round on an exact rational: nearest integer, halves toward +∞. -/
def jsRound (x : ℚ) : ℚ := (⌊x + 1 / 2⌋ : ℤ)

/-- Body of performDivision's seedless `reduce`: the accumulator starts at
the first operand; each subsequent operand is checked against 0 (throwing
`Division by zero`) before dividing. -/
def divideFold (quotient : ℚ) : List ℚ → Except JsError ℚ
  | [] => Except.ok quotient
  | value :: rest =>
    if value = 0 then Except.error divisionByZeroError
    else divideFold (quotient / value) rest

/-- performDivision: seedless left-fold quotient, then, when
`preferences.precision !== undefined`, the rounding
`Math.round(result * 10 ^ p) / 10 ^ p`. -/
def performDivision : CalculationFunction := fun operands preferences =>
  match operands with
  | [] => Except.error reduceEmptyError
  | a :: rest =>
    match divideFold a rest with
    | Except.error e => Except.error e
    | Except.ok result =>
      Except.ok (match preferences.precision with
        | some p => jsRound (result * 10 ^ p) / 10 ^ p
        | none => result)

/-- The operations record of calculator.ts: a fixed mapping from operation
name to calculation function; lookup of any other name yields `undefined`. -/
def operations : String → Option CalculationFunction
  | "add" => some performAddition
  | "subtract" => some performSubtraction
  | "multiply" => some performMultiplication
  | "divide" => some performDivision
  | _ => none

/-- The three-slot sensitive registry of a calculator instance; each slot is
live data or null. -/
structure SensitiveData where
  operands : Option (List ℚ)
  result : Option ℚ
  userPreferences : Option CalculatorPreferences
deriving DecidableEq, Repr

/-- State of one MomentaryCalculatorImpl instance. `timerArmed` and
`timerDeadline` model the pending `setTimeout` handle; `intent` is the
`ephemeralState.data` record, which `createEphemeralState` has passed
through `Object.freeze`. -/
structure MomentaryCalculatorImpl where
  id : String
  purpose : String
  manifestedAt : ℕ
  maxLifetime : ℕ
  active : Bool
  timerArmed : Bool
  timerDeadline : ℕ
  sensitiveData : SensitiveData
  intent : CalculatorIntent
deriving DecidableEq, Repr

/-- The constructor of MomentaryCalculatorImpl as invoked by
manifestCalculator (purpose = intent.operation, manifestedAt = now): starts
active, snapshots the operands into the sensitive registry, and arms the
single fire-once dissolution timer for `now + maxLifetime`. -/
def manifest (id : String) (intent : CalculatorIntent) (maxLifetime : ℕ)
    (now : ℕ) : MomentaryCalculatorImpl where
  id := id
  purpose := intent.operation
  manifestedAt := now
  maxLifetime := maxLifetime
  active := true
  timerArmed := true
  timerDeadline := now + maxLifetime
  sensitiveData :=
    { operands := some intent.operands, result := none, userPreferences := none }
  intent := intent

/-- DEFAULT_MAX_LIFETIME from calculator.ts. -/
def DEFAULT_MAX_LIFETIME : ℕ := 30000

/-- manifestCalculator: resolves `options?.maxLifetime || DEFAULT_MAX_LIFETIME`
(JavaScript `||`, so an explicit 0 also falls back to the default) and runs
the constructor. -/
def manifestCalculator (intent : CalculatorIntent) (maxLifetimeOpt : Option ℕ)
    (id : String) (now : ℕ) : MomentaryCalculatorImpl :=
  let maxLifetime :=
    match maxLifetimeOpt with
    | some m => if m = 0 then DEFAULT_MAX_LIFETIME else m
    | none => DEFAULT_MAX_LIFETIME
  manifest id intent maxLifetime now

/-- Error thrown by execute when the instance is no longer active. -/
def lifecycleError : JsError :=
  { name := "Error", message := "Calculator has been dissolved" }

/-- getUserPreferences: one broker `read` at the fixed path
`/preferences/calculator`. The argument is the outcome of that read: a
rejection (broker failure) or a value (`undefined` modelled as `none`);
`preferences || {}` resolves an undefined read to the empty record. -/
def getUserPreferences
    (brokerRead : Except JsError (Option CalculatorPreferences)) :
    Except JsError CalculatorPreferences :=
  match brokerRead with
  | Except.error e => Except.error e
  | Except.ok v => Except.ok (v.getD {})

/-- execute: rejects with the lifecycle error when not active; otherwise the
whole body runs inside one try/catch, so a broker-read failure or a domain
error thrown by the operation is caught and returned as a result value
carrying `error.message` (every thrown value in this model is an Error, so
the `instanceof Error` test holds). Returns the updated instance state
together with the settled CalculationResult. -/
def execute (s : MomentaryCalculatorImpl)
    (brokerRead : Except JsError (Option CalculatorPreferences)) (now : ℕ) :
    Except JsError (MomentaryCalculatorImpl × CalculationResult) :=
  if s.active = false then
    Except.error lifecycleError
  else
    match getUserPreferences brokerRead with
    | Except.error e =>
      Except.ok (s,
        { value := none, error := some e.message,
          operation := s.intent.operation, completedAt := now })
    | Except.ok preferences =>
      let s1 := { s with sensitiveData :=
        { s.sensitiveData with userPreferences := some preferences } }
      match operations s.intent.operation with
      | none =>
        Except.ok (s1,
          { value := none,
            error := some ("Unknown operation: " ++ s.intent.operation),
            operation := s.intent.operation, completedAt := now })
      | some op =>
        match op s.intent.operands preferences with
        | Except.error e =>
          Except.ok (s1,
            { value := none, error := some e.message,
              operation := s.intent.operation, completedAt := now })
        | Except.ok value =>
          let s2 := { s1 with sensitiveData :=
            { s1.sensitiveData with result := some value } }
          Except.ok (s2,
            { value := some value, error := none,
              operation := s.intent.operation, completedAt := now })

/-- One record reference handed to secureCleanup, as the sweep sees it: its
own enumerable keys, and whether `Object.freeze` has been applied to it. -/
structure SweptRecord where
  keys : List String
  frozen : Bool
deriving DecidableEq, Repr

/-- Outcome of secureCleanup's forEach body on one record: it assigns null
to every own enumerable key in order; in strict module code the first such
assignment on a frozen record throws a TypeError before any field changes. -/
def sweepRecord (r : SweptRecord) : Except JsError Unit :=
  match r.keys with
  | [] => Except.ok ()
  | k :: _ =>
    if r.frozen then
      Except.error
        { name := "TypeError",
          message := "Cannot assign to read only property " ++ k }
    else Except.ok ()

/-- secureCleanup: sweeps the given records in order; a throw from one
record propagates out of forEach at once, skipping later records and the
trailing `global.gc` hint. -/
def secureCleanup : List SweptRecord → Except JsError Unit
  | [] => Except.ok ()
  | r :: rest =>
    match sweepRecord r with
    | Except.error e => Except.error e
    | Except.ok _ => secureCleanup rest

/-- The mutable `sensitiveData` record as seen by the sweep. -/
def sensitiveRecord : SweptRecord :=
  { keys := ["operands", "result", "userPreferences"], frozen := false }

/-- The `ephemeralState.data` record as seen by the sweep: the intent,
frozen by `Object.freeze` inside createEphemeralState. -/
def intentRecord : SweptRecord :=
  { keys := ["operation", "operands"], frozen := true }

/-- dissolve: sets `active = false`, cancels the timer, then awaits
`secureCleanup([sensitiveData, ephemeralState.data])`. The sweep nulls the
three slots of the mutable first record, then throws a TypeError on the
frozen intent record, so the gc hint and the final reassignment
`this.sensitiveData = \x7b null, null, null \x7d` are never reached and the
promise returned by dissolve rejects. Returns the final instance state and
the promise outcome. -/
def dissolve (s : MomentaryCalculatorImpl) :
    MomentaryCalculatorImpl × Except JsError Unit :=
  let s1 := { s with active := false, timerArmed := false }
  match sweepRecord sensitiveRecord with
  | Except.error e => (s1, Except.error e)
  | Except.ok _ =>
    let s2 := { s1 with sensitiveData :=
      { operands := none, result := none, userPreferences := none } }
    match secureCleanup [intentRecord] with
    | Except.error e => (s2, Except.error e)
    | Except.ok _ => (s2, Except.ok ())

/-- isActive accessor. -/
def isActive (s : MomentaryCalculatorImpl) : Bool := s.active

/-- hasResidualData accessor: calculator.ts returns the literal `false`
unconditionally. -/
def hasResidualData (_s : MomentaryCalculatorImpl) : Bool := false

/-- getSensitiveData accessor: returns the current registry contents. -/
def getSensitiveData (s : MomentaryCalculatorImpl) : SensitiveData :=
  s.sensitiveData

/-- Wall-clock advance to time `t`: if the fire-once dissolution timer is
armed and its deadline has been reached, its callback runs the instance's
own dissolve (the callback ignores the returned promise, so the rejection
is unobserved; the state effect is that of a manual call). -/
def advanceTo (s : MomentaryCalculatorImpl) (t : ℕ) : MomentaryCalculatorImpl :=
  if s.timerArmed = true ∧ s.timerDeadline ≤ t then (dissolve s).1 else s

/-- One external event applied to an instance: an execute call (with the
outcome of its broker read and its completion time) or a dissolve call. -/
inductive CalcEvent where
  | exec (brokerRead : Except JsError (Option CalculatorPreferences)) (now : ℕ)
  | diss
deriving Repr

/-- Apply one event to the instance state: a rejected execute leaves the
state unchanged; dissolve keeps its state effect whether or not its promise
rejects. -/
def step (s : MomentaryCalculatorImpl) : CalcEvent → MomentaryCalculatorImpl
  | CalcEvent.exec brokerRead now =>
    match execute s brokerRead now with
    | Except.ok (s1, _) => s1
    | Except.error _ => s
  | CalcEvent.diss => (dissolve s).1

/-- Run a sequence of events. -/
def run (s : MomentaryCalculatorImpl) (events : List CalcEvent) :
    MomentaryCalculatorImpl :=
  events.foldl step s

/-- The fully nulled registry. -/
def nullRegistry : SensitiveData :=
  { operands := none, result := none, userPreferences := none }

theorem dissolve_fst (s : MomentaryCalculatorImpl) :
    (dissolve s).1 =
      { s with active := false, timerArmed := false, sensitiveData := nullRegistry } :=
  rfl

theorem dissolve_snd (s : MomentaryCalculatorImpl) :
    (dissolve s).2 =
      Except.error
        { name := "TypeError",
          message := "Cannot assign to read only property operation" } :=
  rfl

/-- State of the instance after execute has stored the read preferences
into the sensitive registry. -/
def prefsState (s : MomentaryCalculatorImpl)
    (pr : Option CalculatorPreferences) : MomentaryCalculatorImpl :=
  { s with sensitiveData :=
    { s.sensitiveData with userPreferences := some (pr.getD {}) } }

/-- State of the instance after a successful execute has additionally
stored the computed result. -/
def resultState (s : MomentaryCalculatorImpl)
    (pr : Option CalculatorPreferences) (v : ℚ) : MomentaryCalculatorImpl :=
  { prefsState s pr with sensitiveData :=
    { (prefsState s pr).sensitiveData with result := some v } }

theorem execute_of_dissolved (s : MomentaryCalculatorImpl)
    (h : s.active = false)
    (br : Except JsError (Option CalculatorPreferences)) (t : ℕ) :
    execute s br t = Except.error lifecycleError := by
  unfold execute
  rw [h]
  rfl

theorem execute_of_broker_error (s : MomentaryCalculatorImpl)
    (h : s.active = true) (e : JsError) (t : ℕ) :
    execute s (Except.error e) t =
      Except.ok (s,
        { value := none, error := some e.message,
          operation := s.intent.operation, completedAt := t }) := by
  unfold execute
  rw [h]
  rfl

theorem execute_of_unknown (s : MomentaryCalculatorImpl)
    (h : s.active = true) (pr : Option CalculatorPreferences) (t : ℕ)
    (hop : operations s.intent.operation = none) :
    execute s (Except.ok pr) t =
      Except.ok (prefsState s pr,
        { value := none,
          error := some ("Unknown operation: " ++ s.intent.operation),
          operation := s.intent.operation, completedAt := t }) := by
  simp [execute, getUserPreferences, h, hop, prefsState]

theorem execute_of_domain_error (s : MomentaryCalculatorImpl)
    (h : s.active = true) (pr : Option CalculatorPreferences) (t : ℕ)
    (op : CalculationFunction) (e : JsError)
    (hop : operations s.intent.operation = some op)
    (hv : op s.intent.operands (pr.getD {}) = Except.error e) :
    execute s (Except.ok pr) t =
      Except.ok (prefsState s pr,
        { value := none, error := some e.message,
          operation := s.intent.operation, completedAt := t }) := by
  simp [execute, getUserPreferences, h, hop, hv, prefsState]

theorem execute_of_success (s : MomentaryCalculatorImpl)
    (h : s.active = true) (pr : Option CalculatorPreferences) (t : ℕ)
    (op : CalculationFunction) (v : ℚ)
    (hop : operations s.intent.operation = some op)
    (hv : op s.intent.operands (pr.getD {}) = Except.ok v) :
    execute s (Except.ok pr) t =
      Except.ok (resultState s pr v,
        { value := some v, error := none,
          operation := s.intent.operation, completedAt := t }) := by
  simp [execute, getUserPreferences, h, hop, hv, prefsState, resultState]

theorem step_intent (s : MomentaryCalculatorImpl) (e : CalcEvent) :
    (step s e).intent = s.intent := by
  cases e with
  | diss => rfl
  | exec br t =>
    show (match execute s br t with
      | Except.ok (s1, _) => s1
      | Except.error _ => s).intent = s.intent
    cases ha : s.active with
    | false => rw [execute_of_dissolved s ha]
    | true =>
      cases br with
      | error e => rw [execute_of_broker_error s ha]
      | ok pr =>
        cases hop : operations s.intent.operation with
        | none => rw [execute_of_unknown s ha pr t hop]; rfl
        | some op =>
          cases hv : op s.intent.operands (pr.getD {}) with
          | error e => rw [execute_of_domain_error s ha pr t op e hop hv]; rfl
          | ok value => rw [execute_of_success s ha pr t op value hop hv]; rfl

theorem run_intent (s : MomentaryCalculatorImpl) (events : List CalcEvent) :
    (run s events).intent = s.intent := by
  induction events generalizing s with
  | nil => rfl
  | cons e rest ih =>
    show (run (step s e) rest).intent = s.intent
    rw [ih, step_intent]

theorem execute_accepted_of_active (s : MomentaryCalculatorImpl)
    (h : s.active = true)
    (brokerRead : Except JsError (Option CalculatorPreferences)) (t : ℕ) :
    ∃ out, execute s brokerRead t = Except.ok out := by
  cases brokerRead with
  | error e => exact ⟨_, execute_of_broker_error s h e t⟩
  | ok pr =>
    cases hop : operations s.intent.operation with
    | none => exact ⟨_, execute_of_unknown s h pr t hop⟩
    | some op =>
      cases hv : op s.intent.operands (pr.getD {}) with
      | error e => exact ⟨_, execute_of_domain_error s h pr t op e hop hv⟩
      | ok value => exact ⟨_, execute_of_success s h pr t op value hop hv⟩

/-- C1: for every instance and every sequence of execute() calls, after
dissolve() has been invoked, getSensitiveData() returns a record with all
three slots null, regardless of which operations were executed or what
they computed. -/
theorem getSensitiveData_null_after_dissolve (id : String)
    (intent : CalculatorIntent) (m t0 : ℕ)
    (calls : List (Except JsError (Option CalculatorPreferences) × ℕ)) :
    getSensitiveData
        (run (manifest id intent m t0)
          (calls.map (fun c => CalcEvent.exec c.1 c.2) ++ [CalcEvent.diss])) =
      { operands := none, result := none, userPreferences := none } := by
  unfold run
  rw [List.foldl_append]
  rfl

/-- C2: an instance manifested with maxLifetime m arms a single fire-once
timer at construction with deadline manifestedAt + m; it is active
immediately, and once the clock passes the deadline the timer callback runs
the instance's own dissolve, with the same state effect as a manual
dissolve() call: isActive() false and all three registry slots null. -/
theorem timer_fires_at_deadline_and_dissolves (id : String)
    (intent : CalculatorIntent) (m t0 t : ℕ) (h : t0 + m ≤ t) :
    isActive (manifest id intent m t0) = true ∧
    (manifest id intent m t0).timerArmed = true ∧
    (manifest id intent m t0).timerDeadline =
      (manifest id intent m t0).manifestedAt + m ∧
    advanceTo (manifest id intent m t0) t = (dissolve (manifest id intent m t0)).1 ∧
    isActive (advanceTo (manifest id intent m t0) t) = false ∧
    getSensitiveData (advanceTo (manifest id intent m t0) t) =
      { operands := none, result := none, userPreferences := none } := by
  have hfire : advanceTo (manifest id intent m t0) t =
      (dissolve (manifest id intent m t0)).1 := by
    unfold advanceTo
    rw [if_pos ⟨rfl, h⟩]
  refine ⟨rfl, rfl, rfl, hfire, ?_, ?_⟩
  · rw [hfire]; rfl
  · rw [hfire]; rfl

/-- C2 witness: maxLifetime 100 at t0 = 0; at t = 150 the timer has fired. -/
theorem timer_fires_at_deadline_and_dissolves_witness :
    isActive (manifest "w2" ⟨"add", [1, 1]⟩ 100 0) = true ∧
    (manifest "w2" ⟨"add", [1, 1]⟩ 100 0).timerArmed = true ∧
    (manifest "w2" ⟨"add", [1, 1]⟩ 100 0).timerDeadline =
      (manifest "w2" ⟨"add", [1, 1]⟩ 100 0).manifestedAt + 100 ∧
    advanceTo (manifest "w2" ⟨"add", [1, 1]⟩ 100 0) 150 =
      (dissolve (manifest "w2" ⟨"add", [1, 1]⟩ 100 0)).1 ∧
    isActive (advanceTo (manifest "w2" ⟨"add", [1, 1]⟩ 100 0) 150) = false ∧
    getSensitiveData (advanceTo (manifest "w2" ⟨"add", [1, 1]⟩ 100 0) 150) =
      { operands := none, result := none, userPreferences := none } :=
  timer_fires_at_deadline_and_dissolves "w2" ⟨"add", [1, 1]⟩ 100 0 150 (by decide)

/-- C3: every dissolve() call sets active to false, cancels the timer and
nulls all three registry slots, but its promise rejects with a TypeError:
the sweep list is [sensitiveData, ephemeralState.data], the second entry is
the intent frozen at construction, and the strict-mode assignment of null
to a field of that frozen record throws after the sensitiveData slots have
already been nulled, so the gc hint and the final registry reassignment are
never reached. -/
theorem dissolve_rejects_with_typeError (s : MomentaryCalculatorImpl) :
    (dissolve s).1.active = false ∧
    (dissolve s).1.timerArmed = false ∧
    (dissolve s).1.sensitiveData =
      { operands := none, result := none, userPreferences := none } ∧
    intentRecord.frozen = true ∧
    secureCleanup [sensitiveRecord, intentRecord] =
      Except.error
        { name := "TypeError",
          message := "Cannot assign to read only property operation" } ∧
    (dissolve s).2 =
      Except.error
        { name := "TypeError",
          message := "Cannot assign to read only property operation" } :=
  ⟨rfl, rfl, rfl, rfl, rfl, rfl⟩

/-- C6 counterexample: immediately after manifestation the operands slot of
the registry is non-null, yet hasResidualData() still returns false — so it
does not return true exactly when some slot is non-null. -/
theorem hasResidualData_not_reflecting_registry_cex :
    hasResidualData (manifest "r6" ⟨"add", [5, 3]⟩ 30000 0) = false ∧
    (getSensitiveData (manifest "r6" ⟨"add", [5, 3]⟩ 30000 0)).operands =
      some [5, 3] ∧
    some [5, 3] ≠ (none : Option (List ℚ)) := by
  refine ⟨rfl, rfl, ?_⟩
  intro h
  cases h

/-- C6 amended: hasResidualData() is hard-coded to false at every point in
the lifecycle — in particular it is false once the instance is dissolved,
but it is also false while registry slots still hold live data. -/
theorem hasResidualData_always_false (s : MomentaryCalculatorImpl) :
    hasResidualData s = false ∧ hasResidualData (dissolve s).1 = false :=
  ⟨rfl, rfl⟩

/-- C7: dissolve() is idempotent — a second call returns the identical
terminal state (active false, timer cancelled, all three registry slots
null) and the identical promise outcome, with no observable change beyond
the first call. -/
theorem dissolve_idempotent (s : MomentaryCalculatorImpl) :
    dissolve ((dissolve s).1) = ((dissolve s).1, (dissolve s).2) ∧
    (dissolve ((dissolve s).1)).1.active = false ∧
    (dissolve ((dissolve s).1)).1.timerArmed = false ∧
    (dissolve ((dissolve s).1)).1.sensitiveData =
      { operands := none, result := none, userPreferences := none } :=
  ⟨rfl, rfl, rfl, rfl⟩

/-- C8: the TaskIntent supplied to manifest is never mutated by the engine:
over every sequence of execute() and dissolve() calls (including the
cleanup sweep over the frozen intent during dissolution, which throws
before changing anything), the instance's intent keeps exactly the
operation name and operands the caller supplied. -/
theorem intent_never_mutated (id : String) (intent : CalculatorIntent)
    (m t0 : ℕ) (events : List CalcEvent) :
    (run (manifest id intent m t0) events).intent = intent ∧
    (run (manifest id intent m t0) events).intent.operation = intent.operation ∧
    (run (manifest id intent m t0) events).intent.operands = intent.operands := by
  have h : (run (manifest id intent m t0) events).intent = intent := run_intent _ _
  exact ⟨h, by rw [h], by rw [h]⟩

theorem performDivision_error (a : ℚ) (rest : List ℚ)
    (prefs : CalculatorPreferences) (e : JsError)
    (h : divideFold a rest = Except.error e) :
    performDivision (a :: rest) prefs = Except.error e := by
  simp only [performDivision]
  rw [h]

theorem performDivision_ok_some (a : ℚ) (rest : List ℚ) (p : ℕ)
    (rm : Option String) (q : ℚ) (h : divideFold a rest = Except.ok q) :
    performDivision (a :: rest) { precision := some p, roundingMode := rm } =
      Except.ok (jsRound (q * 10 ^ p) / 10 ^ p) := by
  simp only [performDivision]
  rw [h]

theorem performDivision_ok_none (a : ℚ) (rest : List ℚ)
    (rm : Option String) (q : ℚ) (h : divideFold a rest = Except.ok q) :
    performDivision (a :: rest) { precision := none, roundingMode := rm } =
      Except.ok q := by
  simp only [performDivision]
  rw [h]

theorem divideFold_error_of_zero (a : ℚ) (rest : List ℚ)
    (h : (0 : ℚ) ∈ rest) :
    divideFold a rest = Except.error divisionByZeroError := by
  induction rest generalizing a with
  | nil => cases h
  | cons b bs ih =>
    rw [divideFold]
    by_cases hb : b = 0
    · rw [if_pos hb]
    · rw [if_neg hb]
      exact ih _ (Or.resolve_left (List.mem_cons.mp h) fun h0 => hb h0.symm)

theorem divideFold_ok_of_ne_zero (a : ℚ) (rest : List ℚ)
    (h : ∀ b ∈ rest, b ≠ 0) :
    divideFold a rest = Except.ok (rest.foldl (· / ·) a) := by
  induction rest generalizing a with
  | nil => rfl
  | cons b bs ih =>
    rw [divideFold, if_neg (h b (List.mem_cons_self b bs)), List.foldl_cons]
    exact ih _ fun x hx => h x (List.mem_cons_of_mem b hx)

/-- C4 counterexample: a broker-read failure does not propagate to the
caller of execute — the whole body sits inside one try/catch, so the broker
error is converted into a CalculationResult error value and execute
resolves (Except.ok), contradicting the claim that it is rethrown. -/
theorem broker_error_not_rethrown_cex :
    execute (manifest "b4" ⟨"add", [1, 2]⟩ 30000 0)
        (Except.error { name := "Error", message := "broker failure" }) 1 =
      Except.ok (manifest "b4" ⟨"add", [1, 2]⟩ 30000 0,
        { value := none, error := some ("broker failure"),
          operation := "add", completedAt := 1 }) := by
  decide

/-- C4 amended: a failure raised by the broker read inside an execute()
call on an Active instance is caught by execute's catch-all and returned as
a CalculationResult error value carrying the broker error's message (with
operation and completedAt); the instance state is unchanged, and there is
no retry or fallback. It does not propagate as a thrown/rejected failure. -/
theorem broker_error_converted_to_result (s : MomentaryCalculatorImpl)
    (h : s.active = true) (e : JsError) (t : ℕ) :
    execute s (Except.error e) t =
      Except.ok (s,
        { value := none, error := some e.message,
          operation := s.intent.operation, completedAt := t }) :=
  execute_of_broker_error s h e t

/-- C4 witness: the amended theorem at a concrete freshly manifested
instance and a concrete broker error. -/
theorem broker_error_converted_to_result_witness :
    execute (manifest "w4" ⟨"multiply", [7, 6]⟩ 30000 0)
        (Except.error { name := "Error", message := "read failed" }) 2 =
      Except.ok (manifest "w4" ⟨"multiply", [7, 6]⟩ 30000 0,
        { value := none, error := some ("read failed"),
          operation := "multiply", completedAt := 2 }) :=
  broker_error_converted_to_result (manifest "w4" ⟨"multiply", [7, 6]⟩ 30000 0)
    rfl { name := "Error", message := "read failed" } 2

/-- C5: on an Active instance, an unrecognized operation name and a domain
failure raised by the operation (division by zero in particular) are both
returned as CalculationResult error values carrying the message
("Unknown operation: <name>" / "Division by zero") with operation and
completedAt; neither escapes as a rejection, the instance stays Active, and
a later execute() call is still accepted (it settles with a result instead
of rejecting with the lifecycle error). -/
theorem execute_errors_as_results (s : MomentaryCalculatorImpl)
    (h : s.active = true) (pr : Option CalculatorPreferences) (t : ℕ) :
    (operations s.intent.operation = none →
      execute s (Except.ok pr) t =
        Except.ok (prefsState s pr,
          { value := none,
            error := some ("Unknown operation: " ++ s.intent.operation),
            operation := s.intent.operation, completedAt := t }) ∧
      isActive (prefsState s pr) = true ∧
      ∀ br u, ∃ out, execute (prefsState s pr) br u = Except.ok out) ∧
    (∀ op e, operations s.intent.operation = some op →
        op s.intent.operands (pr.getD {}) = Except.error e →
      execute s (Except.ok pr) t =
        Except.ok (prefsState s pr,
          { value := none, error := some e.message,
            operation := s.intent.operation, completedAt := t }) ∧
      isActive (prefsState s pr) = true ∧
      ∀ br u, ∃ out, execute (prefsState s pr) br u = Except.ok out) ∧
    (∀ a rest, (0 : ℚ) ∈ rest →
      performDivision (a :: rest) (pr.getD {}) =
        Except.error divisionByZeroError) ∧
    divisionByZeroError.message = "Division by zero" := by
  have hact : (prefsState s pr).active = true := h
  refine ⟨fun hop => ⟨execute_of_unknown s h pr t hop, hact, ?_⟩,
    fun op e hop hv => ⟨execute_of_domain_error s h pr t op e hop hv, hact, ?_⟩,
    fun a rest hz =>
      performDivision_error a rest (pr.getD {}) divisionByZeroError
        (divideFold_error_of_zero a rest hz), rfl⟩
  · exact fun br u => execute_accepted_of_active _ hact br u
  · exact fun br u => execute_accepted_of_active _ hact br u

/-- C5 witness: a divide-by-zero instance; the domain failure becomes an
error result, the instance stays active and accepts a further execute. -/
theorem execute_errors_as_results_witness :
    execute (manifest "w5" ⟨"divide", [10, 0]⟩ 30000 0) (Except.ok none) 1 =
      Except.ok (prefsState (manifest "w5" ⟨"divide", [10, 0]⟩ 30000 0) none,
        { value := none, error := some (divisionByZeroError.message),
          operation := "divide", completedAt := 1 }) ∧
    isActive (prefsState (manifest "w5" ⟨"divide", [10, 0]⟩ 30000 0) none) = true ∧
    ∀ br u, ∃ out,
      execute (prefsState (manifest "w5" ⟨"divide", [10, 0]⟩ 30000 0) none) br u =
        Except.ok out :=
  (execute_errors_as_results (manifest "w5" ⟨"divide", [10, 0]⟩ 30000 0)
      rfl none 1).2.1 performDivision divisionByZeroError rfl (by decide)

/-- Rounding as the claim words it: to the nearest integer with ties
half-away-from-zero. -/
def roundHalfAwayFromZero (x : ℚ) : ℚ :=
  if 0 ≤ x then ((⌊x + 1 / 2⌋ : ℤ) : ℚ) else ((⌈x - 1 / 2⌉ : ℤ) : ℚ)

/-- C9 counterexample: divide([-1, 2]) with precision 0 has exact quotient
-1/2; half-away-from-zero rounding gives -1, but the code uses Math.round
(halves toward +∞) and returns 0. -/
theorem performDivision_rounding_cex :
    performDivision [-1, 2] { precision := some 0 } = Except.ok 0 ∧
    roundHalfAwayFromZero ((-1 / 2 : ℚ) * 10 ^ 0) / 10 ^ 0 = -1 ∧
    (0 : ℚ) ≠ -1 := by
  refine ⟨?_, ?_, by norm_num⟩
  · rw [performDivision_ok_some (-1) [2] 0 none (-1 / 2)
      (divideFold_ok_of_ne_zero (-1) [2] (by norm_num))]
    norm_num [jsRound]
  · rw [roundHalfAwayFromZero, if_neg (by norm_num)]
    rw [show ((-1 : ℚ) / 2 * 10 ^ 0 - 1 / 2) = ((-1 : ℤ) : ℚ) by norm_num,
      Int.ceil_intCast]
    norm_num

/-- C9 amended: divide computes the left-fold quotient seeded by the first
operand, fails with "Division by zero" when any later operand is 0, and,
when precision p is defined, rounds the final quotient to p decimal digits
with JavaScript Math.round semantics — halves toward positive infinity
(this agrees with half-away-from-zero for non-negative quotients but not
for negative ties); without precision the exact quotient is returned.
divide([22, 7]) with precision 2 yields 3.14. -/
theorem performDivision_leftFold_round (a : ℚ) (rest : List ℚ) (p : ℕ) :
    ((0 : ℚ) ∈ rest →
      performDivision (a :: rest) { precision := some p } =
        Except.error divisionByZeroError) ∧
    divisionByZeroError.message = "Division by zero" ∧
    ((∀ b ∈ rest, b ≠ 0) →
      performDivision (a :: rest) { precision := some p } =
        Except.ok (jsRound (rest.foldl (· / ·) a * 10 ^ p) / 10 ^ p)) ∧
    ((∀ b ∈ rest, b ≠ 0) →
      performDivision (a :: rest) { precision := none } =
        Except.ok (rest.foldl (· / ·) a)) ∧
    ((0 : ℚ) ≤ rest.foldl (· / ·) a * 10 ^ p →
      jsRound (rest.foldl (· / ·) a * 10 ^ p) =
        roundHalfAwayFromZero (rest.foldl (· / ·) a * 10 ^ p)) ∧
    performDivision [22, 7] { precision := some 2 } = Except.ok (157 / 50) := by
  refine ⟨fun hz =>
      performDivision_error a rest _ divisionByZeroError
        (divideFold_error_of_zero a rest hz),
    rfl,
    fun hnz =>
      performDivision_ok_some a rest p none _ (divideFold_ok_of_ne_zero a rest hnz),
    fun hnz =>
      performDivision_ok_none a rest none _ (divideFold_ok_of_ne_zero a rest hnz),
    fun hpos => ?_, ?_⟩
  · rw [roundHalfAwayFromZero, if_pos hpos]; rfl
  · rw [performDivision_ok_some 22 [7] 2 none (22 / 7)
      (divideFold_ok_of_ne_zero 22 [7] (by norm_num))]
    norm_num [jsRound]

/-- C9 witness: concrete instances of the amended theorem — divide([10, 0])
fails with "Division by zero", and divide([22, 7]) with precision 2 yields
157/50 = 3.14. -/
theorem performDivision_leftFold_round_witness :
    performDivision [10, 0] { precision := some 0 } =
      Except.error divisionByZeroError ∧
    performDivision [22, 7] { precision := some 2 } = Except.ok (157 / 50) :=
  ⟨(performDivision_leftFold_round 10 [0] 0).1 (by norm_num),
   (performDivision_leftFold_round 22 [7] 2).2.2.2.2.2⟩

/-- C10: add returns the sum of the operands (fold seeded with 0), multiply
their product (fold seeded with 1), and both results are invariant under
every permutation of the operand sequence. -/
theorem add_multiply_sum_prod_perm (l l2 : List ℚ)
    (prefs prefs2 : CalculatorPreferences) (hl : l ≠ [])
    (hperm : l.Perm l2) :
    performAddition l prefs = Except.ok l.sum ∧
    performMultiplication l prefs = Except.ok l.prod ∧
    performAddition l prefs = performAddition l2 prefs2 ∧
    performMultiplication l prefs = performMultiplication l2 prefs2 := by
  have hsum : ∀ m : List ℚ, performAddition m prefs = Except.ok m.sum := by
    intro m
    show Except.ok (m.foldl (· + ·) 0) = Except.ok m.sum
    rw [List.sum_eq_foldl]
  have hprod : ∀ m : List ℚ, performMultiplication m prefs = Except.ok m.prod := by
    intro m
    show Except.ok (m.foldl (· * ·) 1) = Except.ok m.prod
    rw [List.prod_eq_foldl]
  refine ⟨hsum l, hprod l, ?_, ?_⟩
  · show Except.ok (l.foldl (· + ·) 0) = Except.ok (l2.foldl (· + ·) 0)
    rw [← List.sum_eq_foldl, ← List.sum_eq_foldl, hperm.sum_eq]
  · show Except.ok (l.foldl (· * ·) 1) = Except.ok (l2.foldl (· * ·) 1)
    rw [← List.prod_eq_foldl, ← List.prod_eq_foldl, hperm.prod_eq]

/-- C10 witness: [1, 2] against its permutation [2, 1]. -/
theorem add_multiply_sum_prod_perm_witness :
    performAddition [1, 2] {} = Except.ok (([1, 2] : List ℚ).sum) ∧
    performMultiplication [1, 2] {} = Except.ok (([1, 2] : List ℚ).prod) ∧
    performAddition [1, 2] {} = performAddition [2, 1] {} ∧
    performMultiplication [1, 2] {} = performMultiplication [2, 1] {} :=
  add_multiply_sum_prod_perm [1, 2] [2, 1] {} {} (by simp)
    (by decide)

end OnlyThisMoment
